import Mathlib

/-!
# AvnetScraper: verification of the credential-acquisition core

Shallow embedding of the credential acquisition state machine and its
TTL-backed cache from `src/main.py` (`ConfigManager`, `AuthTokenManager`)
and `src/modules/token_fetch.py` (`AvnetTokenScraper`), together with
theorems settling the spec's claims about them.

Conventions:
* Python `None`-able values become `Option`; Python truthiness of a string
  (`not value`) is `truthyStr`, of a numeric timestamp (`not sourced_at`)
  is `truthyInt`.
* Timestamps (`time.time()`) are modelled as `Int` seconds.
* Side effects (browser creation, navigation, sleeps, file writes,
  browser release) are modelled as explicit event traces so that claims
  about "no side effects" and "released exactly once" are statable.
-/

namespace AvnetScraper

/-- Python truthiness of an optional string: `None` and `""` are falsy. -/
def truthyStr : Option String → Bool
  | none => false
  | some s => s ≠ ""

/-- Python truthiness of an optional numeric timestamp: `None` and `0` are falsy. -/
def truthyInt : Option Int → Bool
  | none => false
  | some n => n ≠ 0

/-- The stored token dictionary `{"value": ..., "sourced_at": ...}` from
`config.json`; each key may be absent (mirrors `dict.get`). -/
structure TokenData where
  value : Option String
  sourced_at : Option Int
deriving DecidableEq, Repr

/-- `TOKEN_EXPIRATION_SECONDS = 30 * 60` from `src/main.py` line 12. -/
def TOKEN_EXPIRATION_SECONDS : Int := 30 * 60

/-- `AuthTokenManager._is_token_valid` (`src/main.py` lines 85-98), with the
current time and the TTL constant abstracted as parameters (the code
instantiates `ttl` with `TOKEN_EXPIRATION_SECONDS` and `now` with
`time.time()`):

```python
if not token_data: return False
value = token_data.get("value"); sourced_at = token_data.get("sourced_at")
if not value or not sourced_at: return False
if time.time() - sourced_at > TOKEN_EXPIRATION_SECONDS: return False
return True
``` -/
def is_token_valid (now ttl : Int) (token_data : Option TokenData) : Bool :=
  match token_data with
  | none => false
  | some td =>
    match td.value, td.sourced_at with
    | some v, some s =>
      if v = "" then false
      else if s = 0 then false
      else if now - s > ttl then false
      else true
    | _, _ => false

/-- The spec's validity predicate, stated from its words: the credential is
valid iff it is present, its value is non-empty, its `sourced_at` is present
and non-zero, and `now - sourced_at <= ttl_seconds`. -/
def valid_spec (now ttl : Int) (td : Option TokenData) : Prop :=
  ∃ v s, td = some ⟨some v, some s⟩ ∧ v ≠ "" ∧ s ≠ 0 ∧ now - s ≤ ttl

/-- Outcome of the single `AvnetTokenScraper(...)`/`scrape_random_value()`
attempt inside `AuthTokenManager._refresh_token`: the scrape returned a value
(possibly `None` or `""`), or an exception escaped the constructor, or an
exception escaped the scrape call. -/
inductive ScrapeOutcome
  | value (v : Option String)
  | raisesAtCreate
  | raisesAtScrape
deriving DecidableEq, Repr

/-- Manager-level side effects performed during `get_token`/`_refresh_token`. -/
inductive MEvent
  | createScraper
  | scrapeCall
  | saveConfig
  | closeScraper
deriving DecidableEq, Repr, BEq

/-- Combined in-memory state of `AuthTokenManager` (`auth_token`) and of
`ConfigManager.data["token"]` (`stored`). -/
structure ManagerState where
  auth_token : Option String
  stored : Option TokenData
deriving DecidableEq, Repr

/-- `AuthTokenManager._refresh_token` (`src/main.py` lines 100-112):

```python
try:
    scraper = AvnetTokenScraper(headless=True)
    new_token = scraper.scrape_random_value()
    if new_token:
        self.config_manager.set_token_data(new_token, time.time())
        self.auth_token = new_token
    else:
        logging.warning("Scraping returned an empty token.")
except Exception as e:
    logging.error(...)
    self.auth_token = None
```

Note: on the `else` (falsy token) branch `self.auth_token` is left
unchanged, and no `scraper.close()` call appears on any path. -/
def refresh_token (now : Int) (o : ScrapeOutcome) (st : ManagerState) :
    ManagerState × List MEvent :=
  match o with
  | .raisesAtCreate => ({ st with auth_token := none }, [.createScraper])
  | .raisesAtScrape => ({ st with auth_token := none }, [.createScraper, .scrapeCall])
  | .value new_token =>
    if truthyStr new_token then
      match new_token with
      | some v =>
        ({ auth_token := some v, stored := some ⟨some v, some now⟩ },
         [.createScraper, .scrapeCall, .saveConfig])
      | none => (st, [.createScraper, .scrapeCall])
    else
      (st, [.createScraper, .scrapeCall])

/-- Result of `AuthTokenManager.get_token`: a returned token string, the
`RuntimeError("Failed to acquire authentication token.")`, or an unhandled
exception on a dead path (a `KeyError` that validity makes unreachable). -/
inductive GetTokenResult
  | ok (v : String)
  | error
  | crash
deriving DecidableEq, Repr

/-- `AuthTokenManager.get_token` (`src/main.py` lines 70-83):

```python
token_data = self.config_manager.get_token_data()
if self._is_token_valid(token_data):
    self.auth_token = token_data["value"]
else:
    self._refresh_token()
if self.auth_token is None:
    raise RuntimeError("Failed to acquire authentication token.")
return self.auth_token
``` -/
def get_token (now : Int) (o : ScrapeOutcome) (st : ManagerState) :
    GetTokenResult × ManagerState × List MEvent :=
  if is_token_valid now TOKEN_EXPIRATION_SECONDS st.stored then
    match st.stored with
    | some td =>
      match td.value with
      | some v => (.ok v, { st with auth_token := some v }, [])
      | none => (.crash, st, [])
    | none => (.crash, st, [])
  else
    let r := refresh_token now o st
    match r.1.auth_token with
    | none => (.error, r.1, r.2)
    | some v => (.ok v, r.1, r.2)

/-! ## ConfigManager._save_config: the cache-file write (src/main.py 56-62)

```python
try:
    with open(self.config_path, "w") as f:
        json.dump(self.data, f, indent=4)
except Exception as e:
    logging.error(f"Failed to save configuration: {e}")
```

`open(path, "w")` truncates the file in place, then `json.dump` writes the
serialized document. We model the write as the sequence of file-system
operations it performs, so a crash after any prefix is expressible. -/

/-- One file-system operation performed by `_save_config`. -/
inductive FileOp
  | openTruncate
  | writeContent (s : String)
deriving DecidableEq, Repr

/-- The operation sequence of `_save_config` for serialized document `s`:
truncate in place, then write. (No temporary file, no rename.) -/
def save_config_ops (s : String) : List FileOp :=
  [.openTruncate, .writeContent s]

/-- Effect of one file operation on the file contents (`none` = file absent). -/
def applyFileOp (file : Option String) : FileOp → Option String
  | .openTruncate => some ""
  | .writeContent s => some s

/-- File contents after running a sequence of operations. -/
def runOps (file : Option String) (ops : List FileOp) : Option String :=
  ops.foldl applyFileOp file

/-- Modelled from the spec: "overwrites the stored credential atomically
(write-then-rename or equivalent so a crash mid-write cannot corrupt the
file)". An operation sequence is atomic when a crash after any prefix
leaves the file either with its old contents or with the final contents. -/
def atomicOps (old : Option String) (ops : List FileOp) : Prop :=
  ∀ pfx, pfx <+: ops → runOps old pfx = old ∨ runOps old pfx = runOps old ops

/-- In-memory config data (`self.data["token"]`) plus the durable file. -/
structure ConfigState where
  data_token : Option TokenData
  file : Option String
deriving DecidableEq, Repr

/-- Where one `_save_config` run ends: the write completes; `open(path, "w")`
itself raises (nothing was performed, the file keeps its old contents); or
`json.dump` raises after the open already truncated the file, with `written`
the part of the document emitted before the error (possibly `""`). The bare
`except Exception` catches either failure. -/
inductive SaveOutcome
  | success
  | failAtOpen
  | failAtWrite (written : String)
deriving DecidableEq, Repr

/-- `_save_config` with its outcome: on success the file holds the
serialized document; when `open` raises the file is untouched; when the
write phase raises the file was already truncated and holds only the
partial `written` contents. In every case the exception (if any) is caught
and logged and the method returns normally — it never raises past its
boundary. -/
def save_config (o : SaveOutcome) (serialized : String) (c : ConfigState) : ConfigState :=
  match o with
  | .success => { c with file := some serialized }
  | .failAtOpen => c
  | .failAtWrite written => { c with file := some written }

/-- `ConfigManager.set_token_data` (src/main.py 49-54): update the in-memory
token dict, then `_save_config`. `serialized` stands for
`json.dumps(self.data)` after the update. -/
def set_token_data (value : String) (sourced_at : Int) (o : SaveOutcome)
    (serialized : String) (c : ConfigState) : ConfigState :=
  save_config o serialized
    { c with data_token := some ⟨some value, some sourced_at⟩ }

/-! ## AvnetTokenScraper (src/modules/token_fetch.py) -/

/-- Does `needle` occur as a prefix of `hay` (character lists)? Models
Python's string containment check starting at position 0. -/
def charsHavePrefix : List Char → List Char → Bool
  | _, [] => true
  | [], _ :: _ => false
  | h :: t, n :: ns => h == n && charsHavePrefix t ns

/-- Does `needle` occur anywhere in `hay`? Models Python's `in` on strings. -/
def charsContain : List Char → List Char → Bool
  | [], needle => needle.isEmpty
  | h :: t, needle => charsHavePrefix (h :: t) needle || charsContain t needle

/-- `needle in hay` for strings. -/
def strContains (hay needle : String) : Bool :=
  charsContain hay.data needle.data

/-- The URL check of `_check_for_challenge` (src/modules/token_fetch.py 133):
`"cdn-cgi" in current_url or "challenge" in current_url or "captcha" in current_url`. -/
def urlHasChallengeFragment (url : String) : Bool :=
  strContains url "cdn-cgi" || strContains url "challenge" || strContains url "captcha"

/-- State of the page the browser is showing during one challenge check.
Each content signal is the earliest time (seconds into the wait) at which
it appears, `none` if it never appears during the check; they mirror the
seven `EC` conditions of `_check_for_challenge` lines 121-127. -/
structure PageState where
  titleJustAMomentAt : Option Nat
  bodyAccessDeniedAt : Option Nat
  bodyVerifyHumanAt : Option Nat
  cfBrowserVerificationAt : Option Nat
  gRecaptchaAt : Option Nat
  pleaseWaitTextAt : Option Nat
  checkingBrowserTextAt : Option Nat
  url : String
deriving DecidableEq, Repr

/-- A signal with earliest appearance time `t` fires within a wait window of
`w` seconds iff `t ≤ w`. -/
def firesWithin (w : Nat) : Option Nat → Bool
  | none => false
  | some t => t ≤ w

/-- `EC.any_of(...)` over the seven content conditions, under wait bound `w`. -/
def contentSignalFired (w : Nat) (p : PageState) : Bool :=
  firesWithin w p.titleJustAMomentAt || firesWithin w p.bodyAccessDeniedAt ||
  firesWithin w p.bodyVerifyHumanAt || firesWithin w p.cfBrowserVerificationAt ||
  firesWithin w p.gRecaptchaAt || firesWithin w p.pleaseWaitTextAt ||
  firesWithin w p.checkingBrowserTextAt

/-- State of an `AvnetTokenScraper` after construction: whether
`self.driver` is set, and the timeout of `self.wait` (the session-wide
`WebDriverWait(self.driver, 20)`), `none` when `self.wait` was never
assigned. -/
structure ScraperState where
  driver : Bool
  wait : Option Nat
deriving DecidableEq, Repr

/-- `AvnetTokenScraper._setup_driver` (src/modules/token_fetch.py 72-81):
`driverInitOk` is whether `webdriver.Chrome(options=...)` succeeds. On
success `self.wait = WebDriverWait(self.driver, 20)`; on
`WebDriverException` the error is printed and `self.driver = None` — the
exception is NOT re-raised. -/
def setup_driver (driverInitOk : Bool) : ScraperState :=
  if driverInitOk then { driver := true, wait := some 20 }
  else { driver := false, wait := none }

/-- The constructor `AvnetTokenScraper.__init__`: sets fields then calls
`_setup_driver`. The `Except` layer records whether construction propagates
an error to the caller; the source never does (driver-creation failure is
caught inside `_setup_driver`), so the result is always `ok`. -/
def mkScraper (driverInitOk : Bool) : Except Unit ScraperState :=
  Except.ok (setup_driver driverInitOk)

/-- `AvnetTokenScraper._check_for_challenge(wait_time=5)`
(src/modules/token_fetch.py 107-146). The `wait_time` parameter is accepted
but never used in the body: the wait is `self.wait.until(EC.any_of(...))`,
bounded by the session-wide 20 s. If a content condition fires, the URL is
inspected (only to choose a message) and the function returns `True` on
both branches; if none fires before the window elapses,
`TimeoutException` is caught and the function returns `False`; when
`self.wait` is unset the resulting error is swallowed by the generic
handler, also `False`. -/
def check_for_challenge (st : ScraperState) (p : PageState) ( wait_time : Nat) : Bool :=
  if st.driver = false then false
  else
    match st.wait with
    | none => false
    | some w =>
      if contentSignalFired w p then
        if urlHasChallengeFragment p.url then true else true
      else false

/-- Session-level side effects of one `scrape_random_value` run. -/
inductive SEvent
  | navigate
  | sleepHuman
  | checkChallenge
  | sleep60
  | waitBody
  | humanSim
  | waitElement
deriving DecidableEq, Repr, BEq

/-- Environment of one `scrape_random_value` run: the page as seen by the
first and (if reached) second challenge check, whether the `body` tag and
the `randomVal` element appear within their 20 s waits, and the three
attributes of the located element (`get_attribute` returning `None` is
`none`). -/
structure Env where
  pageBefore : PageState
  pageAfter : PageState
  bodyPresent : Bool
  elementFound : Bool
  attrValue : Option String
  attrPlaceholder : Option String
  attrDataValue : Option String
deriving DecidableEq, Repr

/-- The attribute-extraction tail of `scrape_random_value`
(src/modules/token_fetch.py 218-235): `value`, else `placeholder`, else
`data-value`, else `None`, each under Python truthiness. -/
def extractAttr (v p d : Option String) : Option String :=
  if truthyStr v then v
  else if truthyStr p then p
  else if truthyStr d then d
  else none

/-- Steps of `scrape_random_value` from the body wait onward
(src/modules/token_fetch.py 200-265): wait for `body` (timeout → `None`),
simulate human behaviour, wait for `randomVal` (timeout → debug prints,
then `None`), then extract. -/
def scrapeAfterChallenge (env : Env) (evs : List SEvent) :
    Option String × List SEvent :=
  if env.bodyPresent = false then (none, evs ++ [SEvent.waitBody])
  else
    let evs2 := evs ++ [SEvent.waitBody, SEvent.humanSim, SEvent.waitElement]
    if env.elementFound = false then (none, evs2)
    else (extractAttr env.attrValue env.attrPlaceholder env.attrDataValue, evs2)

/-- `AvnetTokenScraper.scrape_random_value` (src/modules/token_fetch.py
165-273): abort if the driver is unset; navigate; random 2.5-4.5 s pause;
challenge check (`wait_time=10`); if challenged, one fixed 60 s sleep and a
second check (`wait_time=5`), returning `None` if still challenged; then the
body wait, human simulation, element wait and attribute extraction. -/
def scrape_random_value (st : ScraperState) (env : Env) :
    Option String × List SEvent :=
  if st.driver = false then (none, [])
  else
    let pre := [SEvent.navigate, SEvent.sleepHuman, SEvent.checkChallenge]
    if check_for_challenge st env.pageBefore 10 then
      if check_for_challenge st env.pageAfter 5 then
        (none, pre ++ [SEvent.sleep60, SEvent.checkChallenge])
      else
        scrapeAfterChallenge env (pre ++ [SEvent.sleep60, SEvent.checkChallenge])
    else
      scrapeAfterChallenge env pre

/-- Modelled from the spec: "Extraction fallback order, first non-empty
wins" — the first truthy entry of a candidate list. -/
def firstNonEmptySpec : List (Option String) → Option String
  | [] => none
  | a :: rest => if truthyStr a then a else firstNonEmptySpec rest

/-! ## Theorems -/

/-- On every exit path, `_refresh_token` creates the scraper exactly once
(the refresh is attempted once, with no retry). -/
theorem refresh_token_creates_once (now : Int) (o : ScrapeOutcome) (st : ManagerState) :
    (refresh_token now o st).2.count MEvent.createScraper = 1 := by
  rcases o with v | _ | _
  · rcases v with _ | s
    · rfl
    · by_cases h : truthyStr (some s) = true
      · simp only [refresh_token, if_pos h]
        rfl
      · simp only [refresh_token, if_neg h]
        rfl
  · rfl
  · rfl

/-- When the stored credential is invalid, `get_token` takes the refresh
path: its event trace is exactly the trace of `_refresh_token`. -/
theorem get_token_events_of_invalid (now : Int) (o : ScrapeOutcome) (st : ManagerState)
    (h : is_token_valid now TOKEN_EXPIRATION_SECONDS st.stored = false) :
    (get_token now o st).2.2 = (refresh_token now o st).2 := by
  unfold get_token
  rw [h]
  cases h2 : (refresh_token now o st).1.auth_token <;> simp [h2]

/-- C1: `GetCredential` treats a stored credential as valid iff it is
present, its value is non-empty, its `sourced_at` is present and non-zero,
and `now - sourced_at ≤ ttl_seconds`; a credential aged `ttl + 1` seconds
triggers a refresh (the scraper is created) and one aged `ttl - 1` seconds
does not (no side effect at all). -/
theorem C1_validity_ttl (now ttl : Int) (td : Option TokenData) (o : ScrapeOutcome)
    (a : Option String) (v : String) (hv : v ≠ "")
    (hnz : now - TOKEN_EXPIRATION_SECONDS + 1 ≠ 0) :
    (is_token_valid now ttl td = true ↔ valid_spec now ttl td)
    ∧ is_token_valid now ttl (some ⟨some v, some (now - ttl - 1)⟩) = false
    ∧ (now - ttl + 1 ≠ 0 →
        is_token_valid now ttl (some ⟨some v, some (now - ttl + 1)⟩) = true)
    ∧ (get_token now o ⟨a, some ⟨some v, some (now - TOKEN_EXPIRATION_SECONDS - 1)⟩⟩).2.2.count
        MEvent.createScraper = 1
    ∧ (get_token now o ⟨a, some ⟨some v, some (now - TOKEN_EXPIRATION_SECONDS + 1)⟩⟩).2.2 = [] := by
  have hiff : ∀ ttl1 : Int, (is_token_valid now ttl1 td = true ↔ valid_spec now ttl1 td) := by
    intro ttl1
    constructor
    · intro h
      match td with
      | none => simp [is_token_valid] at h
      | some ⟨none, s0⟩ => simp [is_token_valid] at h
      | some ⟨some v0, none⟩ => simp [is_token_valid] at h
      | some ⟨some v0, some s0⟩ =>
        simp only [is_token_valid] at h
        split_ifs at h with h1 h2 h3
        exact ⟨v0, s0, rfl, h1, h2, by omega⟩
    · rintro ⟨v0, s0, rfl, hv0, hs0, hle⟩
      simp only [is_token_valid]
      rw [if_neg hv0, if_neg hs0, if_neg (by omega)]
  have hold : ∀ ttl1 : Int,
      is_token_valid now ttl1 (some ⟨some v, some (now - ttl1 - 1)⟩) = false := by
    intro ttl1
    simp only [is_token_valid]
    rw [if_neg hv]
    by_cases hz : now - ttl1 - 1 = 0
    · rw [if_pos hz]
    · rw [if_neg hz, if_pos (by omega)]
  have hfresh : ∀ ttl1 : Int, now - ttl1 + 1 ≠ 0 →
      is_token_valid now ttl1 (some ⟨some v, some (now - ttl1 + 1)⟩) = true := by
    intro ttl1 hz
    simp only [is_token_valid]
    rw [if_neg hv, if_neg hz, if_neg (by omega)]
  refine ⟨hiff ttl, hold ttl, hfresh ttl, ?_, ?_⟩
  · rw [get_token_events_of_invalid now o _ (hold TOKEN_EXPIRATION_SECONDS)]
    exact refresh_token_creates_once now o _
  · unfold get_token
    rw [if_pos (hfresh TOKEN_EXPIRATION_SECONDS hnz)]

/-- Witness for C1 at `now = 10000`, `ttl = 1800`, a fresh credential. -/
theorem C1_validity_ttl_witness :
    ("tok" ≠ "" ∧ (10000 : Int) - TOKEN_EXPIRATION_SECONDS + 1 ≠ 0)
    ∧ ((is_token_valid 10000 1800 (some ⟨some "tok", some 9000⟩) = true ↔
          valid_spec 10000 1800 (some ⟨some "tok", some 9000⟩))
        ∧ is_token_valid 10000 1800 (some ⟨some "tok", some (10000 - 1800 - 1)⟩) = false
        ∧ ((10000 : Int) - 1800 + 1 ≠ 0 →
            is_token_valid 10000 1800 (some ⟨some "tok", some (10000 - 1800 + 1)⟩) = true)
        ∧ (get_token 10000 (.value none)
            ⟨none, some ⟨some "tok", some (10000 - TOKEN_EXPIRATION_SECONDS - 1)⟩⟩).2.2.count
            MEvent.createScraper = 1
        ∧ (get_token 10000 (.value none)
            ⟨none, some ⟨some "tok", some (10000 - TOKEN_EXPIRATION_SECONDS + 1)⟩⟩).2.2 = []) :=
  ⟨⟨by decide, by decide⟩,
   C1_validity_ttl 10000 1800 (some ⟨some "tok", some 9000⟩) (.value none) none "tok"
     (by decide) (by decide)⟩

/-- C2 is violated by the code: with an expired stored credential, an
in-memory token left over from an earlier call, and a scrape returning
`None`, `get_token` returns the stale in-memory token instead of raising
(the falsy-scrape branch of `_refresh_token` does not clear
`self.auth_token`). The scrape is still attempted exactly once (no retry). -/
theorem C2_stale_token_returned :
    is_token_valid 100000 TOKEN_EXPIRATION_SECONDS (some ⟨some "oldtok", some 1⟩) = false
    ∧ get_token 100000 (.value none) ⟨some "oldtok", some ⟨some "oldtok", some 1⟩⟩
        = (.ok "oldtok", ⟨some "oldtok", some ⟨some "oldtok", some 1⟩⟩,
           [.createScraper, .scrapeCall])
    ∧ (get_token 100000 (.value none)
        ⟨some "oldtok", some ⟨some "oldtok", some 1⟩⟩).2.2.count MEvent.scrapeCall = 1 := by
  refine ⟨by decide, by decide, by decide⟩

/-- C3 is violated by the code: `_refresh_token` never calls
`scraper.close()`, so on every exit path of a refresh (success, falsy
result, exception at construction, exception during the scrape) the
browser-automation instance is released zero times, not exactly once. -/
theorem C3_close_never_called (now : Int) (o : ScrapeOutcome) (st : ManagerState) :
    (refresh_token now o st).2.count MEvent.closeScraper = 0 := by
  rcases o with v | _ | _
  · rcases v with _ | s
    · rfl
    · by_cases h : truthyStr (some s) = true
      · simp only [refresh_token, if_pos h]
        rfl
      · simp only [refresh_token, if_neg h]
        rfl
  · rfl
  · rfl

/-- C7: when the cached credential is valid, `get_token` returns its value
unchanged, the stored credential is untouched, and the event trace is empty:
no scraper is created, nothing is navigated or awaited, and no store write
happens. -/
theorem C7_fast_path (now : Int) (o : ScrapeOutcome) (st : ManagerState)
    (td : TokenData) (v : String)
    (hst : st.stored = some td) (hv : td.value = some v)
    (hvalid : is_token_valid now TOKEN_EXPIRATION_SECONDS st.stored = true) :
    get_token now o st = (.ok v, { st with auth_token := some v }, []) := by
  rcases st with ⟨a0, st0⟩
  rcases td with ⟨tv, ts⟩
  dsimp only at hst hvalid
  subst hst
  dsimp only at hv
  subst hv
  unfold get_token
  rw [if_pos hvalid]

/-- Witness for C7: a valid cached credential at `now = 10000`. -/
theorem C7_fast_path_witness :
    is_token_valid 10000 TOKEN_EXPIRATION_SECONDS (some ⟨some "tok", some 9000⟩) = true
    ∧ get_token 10000 (.value none) ⟨none, some ⟨some "tok", some 9000⟩⟩
        = (.ok "tok", ⟨some "tok", some ⟨some "tok", some 9000⟩⟩, []) :=
  ⟨by decide,
   C7_fast_path 10000 (.value none) ⟨none, some ⟨some "tok", some 9000⟩⟩
     ⟨some "tok", some 9000⟩ "tok" rfl rfl (by decide)⟩

/-- C4 is false as stated: `_save_config` truncates the cache file in place
and then writes, so a crash between the two steps leaves the file empty —
neither the old nor the new contents. -/
theorem C4_not_atomic_counterexample :
    ¬ atomicOps (some "oldconfig") (save_config_ops "newconfig") := by
  intro h
  have hpfx : [FileOp.openTruncate] <+: save_config_ops "newconfig" :=
    ⟨[FileOp.writeContent "newconfig"], rfl⟩
  have := h [FileOp.openTruncate] hpfx
  simp only [runOps, save_config_ops, List.foldl, applyFileOp] at this
  rcases this with h1 | h1 <;> exact absurd (Option.some.inj h1) (by decide)

/-- C4, amended: `Save` overwrites the stored credential with an in-place
truncate-then-write, which is not atomic — a crash or write-phase failure
between the truncate and the completed write leaves the file truncated or
partial, neither old nor new; an I/O failure during `Save` is non-fatal to
the caller: the exception is caught and logged, the method returns
normally on every outcome, and the run proceeds with the in-memory
credential updated. On success the file holds the new serialized document;
a failure at `open` leaves the old contents; a failure during the write
phase leaves only what was written after the truncation. -/
theorem C4_save_inplace_nonfatal (v : String) (sA : Int) (serialized : String)
    (c : ConfigState) (hold : c.file ≠ some "") (hnew : serialized ≠ "") :
    ¬ atomicOps c.file (save_config_ops serialized)
    ∧ (∀ o, (set_token_data v sA o serialized c).data_token = some ⟨some v, some sA⟩)
    ∧ (set_token_data v sA .success serialized c).file = some serialized
    ∧ (set_token_data v sA .failAtOpen serialized c).file = c.file
    ∧ (∀ w, (set_token_data v sA (.failAtWrite w) serialized c).file = some w) := by
  refine ⟨?_, fun o => by cases o <;> rfl, rfl, rfl, fun w => rfl⟩
  intro h
  have hpfx : [FileOp.openTruncate] <+: save_config_ops serialized :=
    ⟨[FileOp.writeContent serialized], rfl⟩
  have := h [FileOp.openTruncate] hpfx
  simp only [runOps, save_config_ops, List.foldl, applyFileOp] at this
  rcases this with h1 | h1
  · exact hold h1.symm
  · exact hnew (Option.some.inj h1).symm

/-- Witness for C4's amended theorem at concrete contents. -/
theorem C4_save_inplace_nonfatal_witness :
    ((some "oldconfig" : Option String) ≠ some "" ∧ "newconfig" ≠ "")
    ∧ (¬ atomicOps (ConfigState.mk none (some "oldconfig")).file (save_config_ops "newconfig")
        ∧ (∀ o, (set_token_data "tok" 5 o "newconfig" ⟨none, some "oldconfig"⟩).data_token
            = some ⟨some "tok", some 5⟩)
        ∧ (set_token_data "tok" 5 SaveOutcome.success "newconfig"
            ⟨none, some "oldconfig"⟩).file = some "newconfig"
        ∧ (set_token_data "tok" 5 SaveOutcome.failAtOpen "newconfig"
            ⟨none, some "oldconfig"⟩).file = (ConfigState.mk none (some "oldconfig")).file
        ∧ (∀ w, (set_token_data "tok" 5 (SaveOutcome.failAtWrite w) "newconfig"
            ⟨none, some "oldconfig"⟩).file = some w)) :=
  ⟨⟨by decide, by decide⟩,
   C4_save_inplace_nonfatal "tok" 5 "newconfig" ⟨none, some "oldconfig"⟩
     (by decide) (by decide)⟩

/-- C5 is false as stated: a loaded page whose URL contains the challenge
fragments "cdn-cgi" and "challenge" but on which no content-based signal
fires is classified as clear (`False`), because the URL check of
`_check_for_challenge` sits after the `wait.until` on the content signals
and is never reached when that wait times out. -/
theorem C5_url_only_counterexample :
    urlHasChallengeFragment "https://www.avnet.com/cdn-cgi/challenge" = true
    ∧ contentSignalFired 20
        ⟨none, none, none, none, none, none, none,
         "https://www.avnet.com/cdn-cgi/challenge"⟩ = false
    ∧ check_for_challenge (setup_driver true)
        ⟨none, none, none, none, none, none, none,
         "https://www.avnet.com/cdn-cgi/challenge"⟩ 5 = false :=
  ⟨rfl, rfl, rfl⟩

/-- C5, amended: the URL-fragment check never affects the verdict — on a
properly initialized session, a page whose URL contains a known
challenge-path fragment is classified `Challenged` exactly when some
content-based signal fires within the session wait window, and is
classified clear otherwise. -/
theorem C5_url_check_ineffective (p : PageState) (w : Nat)
    (hurl : urlHasChallengeFragment p.url = true) :
    check_for_challenge (setup_driver true) p w = contentSignalFired 20 p := by
  cases h : contentSignalFired 20 p <;>
    simp [check_for_challenge, setup_driver, h]

/-- Witness for C5's amended theorem: a challenge URL with a fired
reCAPTCHA signal is classified `Challenged`. -/
theorem C5_url_check_ineffective_witness :
    urlHasChallengeFragment "https://www.avnet.com/captcha" = true
    ∧ check_for_challenge (setup_driver true)
        ⟨none, none, none, none, some 0, none, none, "https://www.avnet.com/captcha"⟩ 5
      = contentSignalFired 20
          ⟨none, none, none, none, some 0, none, none, "https://www.avnet.com/captcha"⟩ :=
  ⟨by decide,
   C5_url_check_ineffective
     ⟨none, none, none, none, some 0, none, none, "https://www.avnet.com/captcha"⟩ 5
     (by decide)⟩

/-- C6: if challenge detection reports `Challenged` both before and after
the fixed wait, `scrape_random_value` returns `None` and its whole trace is
navigate, the reading pause, the first check, exactly one 60-second hold,
and the second check — nothing after it, and the 60-second hold occurs
exactly once. -/
theorem C6_challenge_terminal (st : ScraperState) (env : Env)
    (hdriver : st.driver = true)
    (h1 : check_for_challenge st env.pageBefore 10 = true)
    (h2 : check_for_challenge st env.pageAfter 5 = true) :
    scrape_random_value st env =
      (none, [SEvent.navigate, SEvent.sleepHuman, SEvent.checkChallenge,
              SEvent.sleep60, SEvent.checkChallenge])
    ∧ (scrape_random_value st env).2.count SEvent.sleep60 = 1 := by
  have hmain : scrape_random_value st env =
      (none, [SEvent.navigate, SEvent.sleepHuman, SEvent.checkChallenge,
              SEvent.sleep60, SEvent.checkChallenge]) := by
    simp [scrape_random_value, hdriver, h1, h2]
  exact ⟨hmain, by rw [hmain]; decide⟩

/-- Witness for C6: a session whose page shows the Cloudflare title at both
checks returns `None` after one 60-second hold. -/
theorem C6_challenge_terminal_witness :
    ((setup_driver true).driver = true
      ∧ check_for_challenge (setup_driver true)
          (Env.mk ⟨some 0, none, none, none, none, none, none, "u"⟩
            ⟨some 0, none, none, none, none, none, none, "u"⟩
            true true (some "x") none none).pageBefore 10 = true
      ∧ check_for_challenge (setup_driver true)
          (Env.mk ⟨some 0, none, none, none, none, none, none, "u"⟩
            ⟨some 0, none, none, none, none, none, none, "u"⟩
            true true (some "x") none none).pageAfter 5 = true)
    ∧ (scrape_random_value (setup_driver true)
          (Env.mk ⟨some 0, none, none, none, none, none, none, "u"⟩
            ⟨some 0, none, none, none, none, none, none, "u"⟩
            true true (some "x") none none) =
        (none, [SEvent.navigate, SEvent.sleepHuman, SEvent.checkChallenge,
                SEvent.sleep60, SEvent.checkChallenge])
        ∧ (scrape_random_value (setup_driver true)
            (Env.mk ⟨some 0, none, none, none, none, none, none, "u"⟩
              ⟨some 0, none, none, none, none, none, none, "u"⟩
              true true (some "x") none none)).2.count SEvent.sleep60 = 1) :=
  ⟨⟨by decide, by decide, by decide⟩,
   C6_challenge_terminal (setup_driver true)
     (Env.mk ⟨some 0, none, none, none, none, none, none, "u"⟩
       ⟨some 0, none, none, none, none, none, none, "u"⟩
       true true (some "x") none none) (by decide) (by decide) (by decide)⟩

/-- C8 is false as stated: when the underlying automation instance cannot
be created, the constructor returns normally (no `SessionInitError`
propagates — the `WebDriverException` is caught inside `_setup_driver`),
leaving a scraper whose driver is unset; a subsequent extraction returns
`None` immediately. -/
theorem C8_init_absorbed_counterexample :
    mkScraper false = Except.ok { driver := false, wait := none }
    ∧ scrape_random_value (setup_driver false)
        ⟨⟨none, none, none, none, none, none, none, "u"⟩,
         ⟨none, none, none, none, none, none, none, "u"⟩,
         true, true, some "x", none, none⟩ = (none, []) :=
  ⟨rfl, rfl⟩

/-- C8, amended: if the underlying automation instance cannot be created,
the constructor catches the error, logs it and records the driver as
absent; construction completes normally (nothing is propagated, and the
creation is attempted only once), and every subsequent extraction call
returns `None` immediately with no side effect. -/
theorem C8_init_failure_absorbed (env : Env) :
    mkScraper false = Except.ok (setup_driver false)
    ∧ (setup_driver false).driver = false
    ∧ scrape_random_value (setup_driver false) env = (none, []) :=
  ⟨rfl, rfl, rfl⟩

/-- C9: extraction returns the first non-empty attribute in the order
value → placeholder → data-value; an element with only a placeholder yields
the placeholder, one with both value and placeholder yields the value, and
one with none populated yields `None`. -/
theorem C9_fallback_order :
    (∀ v p d, extractAttr v p d = firstNonEmptySpec [v, p, d])
    ∧ extractAttr none (some "seed") none = some "seed"
    ∧ extractAttr (some "val") (some "seed") none = some "val"
    ∧ extractAttr none none none = none :=
  ⟨fun _ _ _ => rfl, rfl, rfl, rfl⟩

/-- C10: the `wait_time` parameter of `_check_for_challenge` has no effect
on its verdict — any two values give the same result on the same session
and page — and the actual bound is the session-wide 20-second
`WebDriverWait` configured at construction. -/
theorem C10_wait_time_no_effect :
    (∀ st p w1 w2, check_for_challenge st p w1 = check_for_challenge st p w2)
    ∧ (setup_driver true).wait = some 20 :=
  ⟨fun _ _ _ _ => rfl, rfl⟩

end AvnetScraper
